import Mathlib

/-!
Shallow embedding of the watermark-removal engine of this repository.

The detection rule, rectangle computation, alpha-map cache and background
selection are translated from src/core/watermarkEngine.js.  The per-pixel
removal transform lives in src/core/blendModes.js, which is imported by the
engine but absent from the inspected sources; it is modelled from the
specification (section 4.3) where noted.
-/

/-- Watermark configuration returned by detection:
logoSize, marginRight, marginBottom (watermarkEngine.js lines 17-34). -/
structure WatermarkConfig where
  logoSize : Int
  marginRight : Int
  marginBottom : Int
deriving DecidableEq

/-- detectWatermarkConfig (watermarkEngine.js lines 17-34): if both image
width and height are greater than 1024, use the 96 tier, otherwise the
48 tier. -/
def detectWatermarkConfig (imageWidth imageHeight : Int) : WatermarkConfig :=
  if 1024 < imageWidth ∧ 1024 < imageHeight then
    ⟨96, 64, 64⟩
  else
    ⟨48, 32, 32⟩

/-- A rectangle in image pixel coordinates, as the object
with fields x, y, width, height used throughout the engine. -/
structure Rect where
  x : Int
  y : Int
  width : Int
  height : Int
deriving DecidableEq

/-- calculateWatermarkPosition (watermarkEngine.js lines 43-52). -/
def calculateWatermarkPosition (imageWidth imageHeight : Int)
    (config : WatermarkConfig) : Rect :=
  ⟨imageWidth - config.marginRight - config.logoSize,
   imageHeight - config.marginBottom - config.logoSize,
   config.logoSize,
   config.logoSize⟩

/-- Return value of getWatermarkInfo (watermarkEngine.js lines 169-178). -/
structure WatermarkInfo where
  size : Int
  position : Rect
  config : WatermarkConfig
deriving DecidableEq

/-- getWatermarkInfo (watermarkEngine.js lines 169-178): detect the
configuration, compute the position, and package both. -/
def getWatermarkInfo (imageWidth imageHeight : Int) : WatermarkInfo :=
  ⟨(detectWatermarkConfig imageWidth imageHeight).logoSize,
   calculateWatermarkPosition imageWidth imageHeight
     (detectWatermarkConfig imageWidth imageHeight),
   detectWatermarkConfig imageWidth imageHeight⟩

/-- Which of the two reference background captures is used
(bgCaptures.bg48 or bgCaptures.bg96 in watermarkEngine.js). -/
inductive BgChoice where
  | bg48
  | bg96
deriving DecidableEq

/-- An alpha map: a per-position opacity coefficient
(Float32Array in the source, modelled as rationals). -/
abbrev AlphaMap := Int → Int → ℚ

/-- Engine state: the two loaded captures together with the derivation
pipeline, and the alpha-map cache this.alphaMaps keyed by strings.
The derive field abstracts the canvas scaling plus calculateAlphaMap of
src/core/alphaMap.js, which is not among the inspected sources; per the
specification (section 4.2) it is a deterministic function of the chosen
capture and the requested size. -/
structure WatermarkEngine where
  derive : BgChoice → Int → Int → AlphaMap
  alphaMaps : String → Option AlphaMap

/-- The cache key template of getAlphaMap (watermarkEngine.js line 91). -/
def cacheKey (width height : Int) : String :=
  toString width ++ "x" ++ toString height

/-- The capture-selection heuristic of getAlphaMap (watermarkEngine.js
line 100): use bg96 if the larger dimension exceeds 72, otherwise bg48. -/
def selectBgCapture (width height : Int) : BgChoice :=
  if 72 < max width height then BgChoice.bg96 else BgChoice.bg48

/-- getAlphaMap (watermarkEngine.js lines 90-120): return the cached map
if present, otherwise derive one from the selected capture and cache it.
The third component records whether the derivation work ran on this call. -/
def getAlphaMap (e : WatermarkEngine) (width height : Int) :
    AlphaMap × WatermarkEngine × Bool :=
  match e.alphaMaps (cacheKey width height) with
  | some cached => (cached, e, false)
  | none =>
      let bgImage := selectBgCapture width height
      let alphaMap := e.derive bgImage width height
      let cache : String → Option AlphaMap := fun k =>
        if k = cacheKey width height then some alphaMap else e.alphaMaps k
      (alphaMap, { e with alphaMaps := cache }, true)

/-- getAlphaMap called with the height argument omitted: the source
declares it as getAlphaMap(width, height = width)
(watermarkEngine.js line 90). -/
def getAlphaMapDefault (e : WatermarkEngine) (width : Int) :
    AlphaMap × WatermarkEngine × Bool :=
  getAlphaMap e width width

/-- Membership of an integer point in a rectangle. -/
def Rect.contains (r : Rect) (px py : Int) : Prop :=
  r.x ≤ px ∧ px < r.x + r.width ∧ r.y ≤ py ∧ py < r.y + r.height

instance (r : Rect) (px py : Int) : Decidable (r.contains px py) := by
  unfold Rect.contains
  infer_instance

/-- Modelled from the spec: the removal transform of
src/core/blendModes.js is not among the inspected sources; section 4.3
states that any rectangle extending outside the image bounds is clipped
to the image bounds before pixel access. -/
def clipRect (r : Rect) (imageWidth imageHeight : Int) : Rect :=
  ⟨max 0 r.x,
   max 0 r.y,
   min (r.x + r.width) imageWidth - max 0 r.x,
   min (r.y + r.height) imageHeight - max 0 r.y⟩

/-- A decoded pixel buffer: RGBA byte samples addressed by x, y and a
channel index (channels 0-2 are color, channel 3 is alpha). -/
structure ImageData where
  width : Int
  height : Int
  pix : Int → Int → Fin 4 → Int

/-- Modelled from the spec: the per-channel inversion of
src/core/blendModes.js is not among the inspected sources; section 4.3
gives it as original = (observed - alpha * logo) / (1 - alpha) when
alpha < 1 and original = observed otherwise, followed by
clamp(round(original), 0, 255). -/
def unblendChannel (alpha logo : ℚ) (observed : Int) : Int :=
  let original : ℚ :=
    if alpha < 1 then ((observed : ℚ) - alpha * logo) / (1 - alpha)
    else (observed : ℚ)
  min 255 (max 0 (round original))

/-- Modelled from the spec: removeWatermark of src/core/blendModes.js is
not among the inspected sources; section 4.3 states that every color
channel of every pixel inside the clipped rectangle is replaced by the
inverted value computed from the alpha map entry at the offset from the
rectangle origin and the fixed logo color, while every other sample,
including the whole alpha channel, is left unchanged. -/
def removeWatermark (logoColor : Fin 4 → ℚ) (img : ImageData)
    (alphaMap : AlphaMap) (rect : Rect) : ImageData :=
  let clipped := clipRect rect img.width img.height
  let newPix : Int → Int → Fin 4 → Int := fun px py c =>
    if clipped.contains px py ∧ c.val < 3 then
      unblendChannel (alphaMap (px - rect.x) (py - rect.y)) (logoColor c)
        (img.pix px py c)
    else
      img.pix px py c
  { img with pix := newPix }

theorem clip_contains_iff (r : Rect) (W H px py : Int) :
    (clipRect r W H).contains px py ↔
      r.contains px py ∧ 0 ≤ px ∧ px < W ∧ 0 ≤ py ∧ py < H := by
  unfold clipRect Rect.contains
  dsimp
  omega

theorem removeWatermark_noop_of_empty (logoColor : Fin 4 → ℚ)
    (img : ImageData) (alphaMap : AlphaMap) (rect : Rect)
    (hempty : (clipRect rect img.width img.height).width ≤ 0 ∨
              (clipRect rect img.width img.height).height ≤ 0) :
    removeWatermark logoColor img alphaMap rect = img := by
  obtain ⟨W, H, pix⟩ := img
  unfold removeWatermark
  dsimp
  congr 1
  funext px py c
  rw [if_neg]
  rintro ⟨hclip, -⟩
  unfold Rect.contains at hclip
  unfold clipRect at hclip hempty
  dsimp at hclip hempty
  omega

/-- Claim C1: tier detection returns the 96 tier (logoSize 96, margins 64)
if and only if width > 1024 and height > 1024, and otherwise returns the
48 tier (logoSize 48, margins 32); in particular 1024 by 1025 yields the
48 tier. -/
theorem detectWatermarkConfig_tier_rule :
    (∀ w h : Int, detectWatermarkConfig w h = ⟨96, 64, 64⟩ ↔
        (1024 < w ∧ 1024 < h)) ∧
    (∀ w h : Int, ¬ (1024 < w ∧ 1024 < h) →
        detectWatermarkConfig w h = ⟨48, 32, 32⟩) ∧
    detectWatermarkConfig 1024 1025 = ⟨48, 32, 32⟩ := by
  refine ⟨?_, ?_, by decide⟩
  · intro w h
    unfold detectWatermarkConfig
    by_cases hc : 1024 < w ∧ 1024 < h
    · rw [if_pos hc]
      exact iff_of_true rfl hc
    · rw [if_neg hc]
      exact iff_of_false (by decide) hc
  · intro w h hc
    unfold detectWatermarkConfig
    rw [if_neg hc]

/-- Witness for C1: a pair of dimensions not both above 1024 gets the
48 tier. -/
theorem detectWatermarkConfig_tier_rule_witness :
    detectWatermarkConfig 1000 2000 = ⟨48, 32, 32⟩ :=
  detectWatermarkConfig_tier_rule.2.1 1000 2000 (by decide)

/-- Claim C2: the detected rectangle is anchored to the bottom-right
corner, x = imageWidth - marginRight - logoSize,
y = imageHeight - marginBottom - logoSize, width = height = logoSize;
for the 48 tier on an 800 by 600 image the rectangle is
x 720, y 520, width 48, height 48. -/
theorem calculateWatermarkPosition_anchor :
    (∀ (w h : Int) (config : WatermarkConfig),
        calculateWatermarkPosition w h config =
          ⟨w - config.marginRight - config.logoSize,
           h - config.marginBottom - config.logoSize,
           config.logoSize, config.logoSize⟩) ∧
    calculateWatermarkPosition 800 600 (detectWatermarkConfig 800 600) =
      ⟨720, 520, 48, 48⟩ :=
  ⟨fun _ _ _ => rfl, by decide⟩

/-- Claim C7: the alpha-map derivation selects the 96-native reference
capture exactly when max width height exceeds 72, and the 48-native
capture otherwise; the threshold is the fixed constant 72. -/
theorem selectBgCapture_threshold :
    ∀ width height : Int,
      (selectBgCapture width height = BgChoice.bg96 ↔
        72 < max width height) ∧
      (selectBgCapture width height = BgChoice.bg48 ↔
        max width height ≤ 72) := by
  intro w h
  unfold selectBgCapture
  by_cases hlt : 72 < max w h
  · rw [if_pos hlt]
    exact ⟨iff_of_true rfl hlt, iff_of_false (by decide) (by omega)⟩
  · rw [if_neg hlt]
    exact ⟨iff_of_false (by decide) hlt, iff_of_true rfl (by omega)⟩

/-- Counterexample to claim C8: at the positive dimensions 50 by 50 the
detected rectangle has x = -30, which is negative, so the detector does
not guarantee nonnegative coordinates for all positive dimensions. -/
theorem getWatermarkInfo_negative_x_at_50 :
    (0 : Int) < 50 ∧ (0 : Int) < 50 ∧
      (getWatermarkInfo 50 50).position.x = -30 := by
  decide

/-- Claim C8 as amended: for positive dimensions the detected rectangle
has width = height = logoSize > 0 and satisfies x + width ≤ imageWidth
and y + height ≤ imageHeight; its x and y are nonnegative whenever both
dimensions are at least 80, but can be negative on smaller images. -/
theorem getWatermarkInfo_rect_invariants :
    ∀ w h : Int, 0 < w → 0 < h →
      (0 < (getWatermarkInfo w h).position.width ∧
       (getWatermarkInfo w h).position.height =
         (getWatermarkInfo w h).position.width ∧
       (getWatermarkInfo w h).position.x +
         (getWatermarkInfo w h).position.width ≤ w ∧
       (getWatermarkInfo w h).position.y +
         (getWatermarkInfo w h).position.height ≤ h) ∧
      (80 ≤ w → 80 ≤ h →
        0 ≤ (getWatermarkInfo w h).position.x ∧
        0 ≤ (getWatermarkInfo w h).position.y) := by
  intro w h hw hh
  unfold getWatermarkInfo calculateWatermarkPosition detectWatermarkConfig
  by_cases hc : 1024 < w ∧ 1024 < h
  · rw [if_pos hc]
    dsimp
    omega
  · rw [if_neg hc]
    dsimp
    omega

/-- Witness for the amended C8 at 800 by 600. -/
theorem getWatermarkInfo_rect_invariants_witness :
    (0 < (getWatermarkInfo 800 600).position.width ∧
     (getWatermarkInfo 800 600).position.height =
       (getWatermarkInfo 800 600).position.width ∧
     (getWatermarkInfo 800 600).position.x +
       (getWatermarkInfo 800 600).position.width ≤ 800 ∧
     (getWatermarkInfo 800 600).position.y +
       (getWatermarkInfo 800 600).position.height ≤ 600) ∧
    (80 ≤ (800 : Int) → 80 ≤ (600 : Int) →
      0 ≤ (getWatermarkInfo 800 600).position.x ∧
      0 ≤ (getWatermarkInfo 800 600).position.y) :=
  getWatermarkInfo_rect_invariants 800 600 (by decide) (by decide)

/-- Counterexample to claim C9: detection at the non-positive dimensions
0 by 0 returns the 48-tier configuration instead of rejecting the input
with an invalid-dimensions error. -/
theorem detectWatermarkConfig_accepts_nonpositive :
    detectWatermarkConfig 0 0 = ⟨48, 32, 32⟩ := by
  decide

/-- Claim C9 as amended: neither detection nor the removal transform
rejects non-positive dimensions; detection totally returns the 48 tier
whenever the dimensions are not both above 1024 (hence for every
non-positive dimension), and removal on an image with a non-positive
dimension is a no-op returning the input unchanged. -/
theorem nonpositive_dims_are_accepted :
    (∀ w h : Int, w ≤ 0 ∨ h ≤ 0 →
        detectWatermarkConfig w h = ⟨48, 32, 32⟩) ∧
    (∀ (logoColor : Fin 4 → ℚ) (img : ImageData) (alphaMap : AlphaMap)
        (rect : Rect), img.width ≤ 0 ∨ img.height ≤ 0 →
        removeWatermark logoColor img alphaMap rect = img) := by
  constructor
  · intro w h hwh
    unfold detectWatermarkConfig
    rw [if_neg (by omega)]
  · intro lc img am rect hdim
    apply removeWatermark_noop_of_empty
    unfold clipRect
    dsimp
    omega

/-- Witness for the amended C9: zero width is accepted by detection and a
zero-sized image passes through removal unchanged. -/
theorem nonpositive_dims_are_accepted_witness :
    detectWatermarkConfig 0 500 = ⟨48, 32, 32⟩ ∧
    removeWatermark (fun _ => 200) ⟨0, 0, fun _ _ _ => 7⟩ (fun _ _ => 0)
        ⟨0, 0, 48, 48⟩ =
      (⟨0, 0, fun _ _ _ => 7⟩ : ImageData) :=
  ⟨nonpositive_dims_are_accepted.1 0 500 (Or.inl (by decide)),
   nonpositive_dims_are_accepted.2 (fun _ => 200) ⟨0, 0, fun _ _ _ => 7⟩
     (fun _ _ => 0) ⟨0, 0, 48, 48⟩ (Or.inl (by decide))⟩

/-- Claim C3: watermark removal leaves every pixel strictly outside the
rectangle byte-for-byte identical between input and output, and leaves
the alpha channel of every pixel unmodified. -/
theorem removeWatermark_locality :
    ∀ (logoColor : Fin 4 → ℚ) (img : ImageData) (alphaMap : AlphaMap)
      (rect : Rect) (px py : Int) (c : Fin 4),
      (¬ rect.contains px py →
        (removeWatermark logoColor img alphaMap rect).pix px py c =
          img.pix px py c) ∧
      (removeWatermark logoColor img alphaMap rect).pix px py 3 =
        img.pix px py 3 := by
  intro lc img am rect px py c
  constructor
  · intro hout
    unfold removeWatermark
    dsimp
    rw [if_neg]
    rintro ⟨hclip, -⟩
    exact hout ((clip_contains_iff rect img.width img.height px py).1 hclip).1
  · unfold removeWatermark
    dsimp
    rw [if_neg]
    rintro ⟨-, hlt⟩
    exact absurd hlt (by decide)

/-- Witness for C3: a concrete pixel outside the rectangle, and a
concrete alpha-channel sample, both keep their input value 100. -/
theorem removeWatermark_locality_witness :
    (removeWatermark (fun _ => 200) ⟨4, 4, fun _ _ _ => 100⟩
        (fun _ _ => 1 / 2) ⟨0, 0, 2, 2⟩).pix 3 3 0 = 100 ∧
    (removeWatermark (fun _ => 200) ⟨4, 4, fun _ _ _ => 100⟩
        (fun _ _ => 1 / 2) ⟨0, 0, 2, 2⟩).pix 1 1 3 = 100 :=
  ⟨(removeWatermark_locality (fun _ => 200) ⟨4, 4, fun _ _ _ => 100⟩
      (fun _ _ => 1 / 2) ⟨0, 0, 2, 2⟩ 3 3 0).1 (by decide),
   (removeWatermark_locality (fun _ => 200) ⟨4, 4, fun _ _ _ => 100⟩
      (fun _ _ => 1 / 2) ⟨0, 0, 2, 2⟩ 1 1 3).2⟩

/-- Claim C4: for a pixel of the image inside the rectangle and a color
channel, when the alpha coefficient is below 1 the output is
clamp(round((observed - alpha * logoColor) / (1 - alpha)), 0, 255), and
when the alpha coefficient equals 1 the observed byte passes through
unchanged, so the transform never divides by zero. -/
theorem removeWatermark_unblend_formula :
    ∀ (logoColor : Fin 4 → ℚ) (img : ImageData) (alphaMap : AlphaMap)
      (rect : Rect) (px py : Int) (c : Fin 4),
      c.val < 3 →
      rect.contains px py →
      0 ≤ px → px < img.width → 0 ≤ py → py < img.height →
      ((alphaMap (px - rect.x) (py - rect.y) < 1 →
        (removeWatermark logoColor img alphaMap rect).pix px py c =
          min 255 (max 0 (round ((((img.pix px py c : ℤ) : ℚ) -
              alphaMap (px - rect.x) (py - rect.y) * logoColor c) /
              (1 - alphaMap (px - rect.x) (py - rect.y)))))) ∧
       (alphaMap (px - rect.x) (py - rect.y) = 1 →
        0 ≤ img.pix px py c → img.pix px py c ≤ 255 →
        (removeWatermark logoColor img alphaMap rect).pix px py c =
          img.pix px py c)) := by
  intro lc img am rect px py c hc hin hx0 hxW hy0 hyH
  have hclip : (clipRect rect img.width img.height).contains px py :=
    (clip_contains_iff rect img.width img.height px py).2
      ⟨hin, hx0, hxW, hy0, hyH⟩
  constructor
  · intro halpha
    unfold removeWatermark
    dsimp
    rw [if_pos ⟨hclip, hc⟩]
    unfold unblendChannel
    dsimp only
    rw [if_pos halpha]
  · intro halpha hlo hhi
    unfold removeWatermark
    dsimp
    rw [if_pos ⟨hclip, hc⟩]
    unfold unblendChannel
    dsimp only
    rw [halpha, if_neg (by norm_num), round_intCast]
    omega

/-- Witness for C4: at alpha 0 the formula value is produced, at alpha 1
the observed byte 100 passes through. -/
theorem removeWatermark_unblend_formula_witness :
    ((removeWatermark (fun _ => 200) ⟨4, 4, fun _ _ _ => 100⟩
        (fun _ _ => 0) ⟨0, 0, 2, 2⟩).pix 1 1 0 =
      min 255 (max 0 (round (((((100 : ℤ) : ℚ)) - 0 * 200) / (1 - 0))))) ∧
    (removeWatermark (fun _ => 200) ⟨4, 4, fun _ _ _ => 100⟩
        (fun _ _ => 1) ⟨0, 0, 2, 2⟩).pix 1 1 0 = 100 :=
  ⟨(removeWatermark_unblend_formula (fun _ => 200) ⟨4, 4, fun _ _ _ => 100⟩
      (fun _ _ => 0) ⟨0, 0, 2, 2⟩ 1 1 0 (by decide) (by decide) (by decide)
      (by decide) (by decide) (by decide)).1 (by norm_num),
   (removeWatermark_unblend_formula (fun _ => 200) ⟨4, 4, fun _ _ _ => 100⟩
      (fun _ _ => 1) ⟨0, 0, 2, 2⟩ 1 1 0 (by decide) (by decide) (by decide)
      (by decide) (by decide) (by decide)).2 rfl (by decide) (by decide)⟩

/-- Claim C5: the removal transform only ever changes samples at
coordinates inside both the image bounds and the given rectangle (the
rectangle is clipped to the image before any pixel access), and a
rectangle whose clipped width or height is not positive, such as a fully
out-of-bounds rectangle, makes the transform a no-op that returns the
input unchanged rather than an error. -/
theorem removeWatermark_clipping :
    ∀ (logoColor : Fin 4 → ℚ) (img : ImageData) (alphaMap : AlphaMap)
      (rect : Rect),
      (∀ (px py : Int) (c : Fin 4),
        (removeWatermark logoColor img alphaMap rect).pix px py c ≠
            img.pix px py c →
          0 ≤ px ∧ px < img.width ∧ 0 ≤ py ∧ py < img.height ∧
            rect.contains px py) ∧
      ((clipRect rect img.width img.height).width ≤ 0 ∨
       (clipRect rect img.width img.height).height ≤ 0 →
        removeWatermark logoColor img alphaMap rect = img) := by
  intro lc img am rect
  constructor
  · intro px py c hne
    unfold removeWatermark at hne
    dsimp at hne
    by_cases hcond :
        (clipRect rect img.width img.height).contains px py ∧ c.val < 3
    · have hb := (clip_contains_iff rect img.width img.height px py).1 hcond.1
      exact ⟨hb.2.1, hb.2.2.1, hb.2.2.2.1, hb.2.2.2.2, hb.1⟩
    · rw [if_neg hcond] at hne
      exact absurd rfl hne
  · exact removeWatermark_noop_of_empty lc img am rect

/-- Witness for C5: a rectangle fully outside a 4 by 4 image leaves the
image unchanged. -/
theorem removeWatermark_clipping_witness :
    removeWatermark (fun _ => 200) ⟨4, 4, fun _ _ _ => 100⟩ (fun _ _ => 0)
        ⟨10, 10, 3, 3⟩ =
      (⟨4, 4, fun _ _ _ => 100⟩ : ImageData) :=
  (removeWatermark_clipping (fun _ => 200) ⟨4, 4, fun _ _ _ => 100⟩
      (fun _ _ => 0) ⟨10, 10, 3, 3⟩).2 (Or.inl (by decide))

/-- Claim C6: getAlphaMap is idempotent and cached by the exact
width-height key: calling it twice with the same pair returns identical
alpha maps, and the second call does not re-run the derivation work. -/
theorem getAlphaMap_cache :
    ∀ (e : WatermarkEngine) (width height : Int),
      (getAlphaMap (getAlphaMap e width height).2.1 width height).1 =
        (getAlphaMap e width height).1 ∧
      (getAlphaMap (getAlphaMap e width height).2.1 width height).2.2 =
        false := by
  intro e w h
  unfold getAlphaMap
  cases hm : e.alphaMaps (cacheKey w h) with
  | some cached => simp [hm]
  | none => simp [hm]

/-- Claim C10: calling getAlphaMap with the height argument omitted
defaults the height to the width: the call agrees with getAlphaMap at
width width in result, state and derivation flag, and it populates the
cache entry at the width-by-width key with the returned map. -/
theorem getAlphaMapDefault_eq :
    ∀ (e : WatermarkEngine) (width : Int),
      getAlphaMapDefault e width = getAlphaMap e width width ∧
      (getAlphaMapDefault e width).2.1.alphaMaps (cacheKey width width) =
        some (getAlphaMapDefault e width).1 := by
  intro e w
  refine ⟨rfl, ?_⟩
  unfold getAlphaMapDefault getAlphaMap
  cases hm : e.alphaMaps (cacheKey w w) with
  | some cached => simpa using hm
  | none => simp
